import Mathlib

/-!
Shallow embedding of `github_stats.py`: a bounded-concurrency GitHub
statistics client.  The program has a GraphQL query operation
(`Queries.query`), a REST query operation with a 202-retry loop
(`Queries.query_rest`), a statistics renderer (`Stats.to_str`), and a
constructor that validates the username (`Queries.__init__`).  Network
I/O is modelled by passing each call an oracle describing what the
transport does (its HTTP status and decoded body, or the exception it
raises); the definitions below mirror the control flow of the Python
source on those oracles, additionally recording the messages printed,
the backoff sleeps performed, and the order of semaphore
acquire/release events.
-/

/-- Decoded JSON documents, as produced by `r.json()`.  The Python empty
dict `\x7b\x7d` — the value returned by both query operations on failure — is
`Json.obj []`. -/
inductive Json where
  | null
  | bool (b : Bool)
  | num (n : Int)
  | str (s : String)
  | arr (elems : List Json)
  | obj (fields : List (String × Json))

/-- The empty-result value `\x7b\x7d` that the query layer returns on failure. -/
def emptyDict : Json := Json.obj []

/-- Python truthiness of a decoded JSON value (`not data`). -/
def pyFalsy : Json → Bool
  | Json.null => true
  | Json.bool b => !b
  | Json.num n => n == 0
  | Json.str s => s == ""
  | Json.arr xs => xs.isEmpty
  | Json.obj fs => fs.isEmpty

/-- Python `k in d` for a decoded JSON dict. -/
def Json.hasKey : Json → String → Bool
  | Json.obj fs, k => fs.any (fun p => p.1 == k)
  | _, _ => false

/-- Python `d[k]` for a decoded JSON dict.  The source only indexes
dicts whose keys are present; on any other input this total model
returns `Json.null` (where Python would raise). -/
def Json.get : Json → String → Json
  | Json.obj fs, k => ((fs.find? (fun p => p.1 == k)).map Prod.snd).getD Json.null
  | _, _ => Json.null

/-- A decoded JSON list (`user["repositories"]["nodes"]`). -/
def asArr : Json → List Json
  | Json.arr xs => xs
  | _ => []

/-- A decoded JSON integer (`repo["stargazerCount"]`). -/
def asInt : Json → Int
  | Json.num n => n
  | _ => 0

/-- How Python's `str()` renders the JSON scalars appearing in the
output f-string. -/
def jrender : Json → String
  | Json.null => "None"
  | Json.bool b => if b then "True" else "False"
  | Json.num n => toString n
  | Json.str s => s
  | Json.arr _ => ""
  | Json.obj _ => ""

/-- Result of decoding one HTTP body: `r.json()` either yields a value
or raises. -/
inductive Decoded where
  | ok (j : Json)
  | failed (msg : String)

/-- What one HTTP request does, as seen by the caller: the request
completes with a status code and a body-decode result, or the transport
raises an exception carrying a message. -/
inductive HttpOutcome where
  | response (status : Nat) (body : Decoded)
  | raised (msg : String)

/-- `Queries.query` (lines 28-39): POSTs the generated query to the
GraphQL endpoint inside `async with self.semaphore` and returns
`await r.json()` with no status-code check; on any exception it prints
`GraphQL query failed: ...` and returns `\x7b\x7d`.  The result is paired
with the list of messages printed during the call. -/
def Queries.query (outcome : HttpOutcome) : Json × List String :=
  match outcome with
  | HttpOutcome.response _ (Decoded.ok j) => (j, [])
  | HttpOutcome.response _ (Decoded.failed e) =>
      (emptyDict, ["GraphQL query failed: " ++ e])
  | HttpOutcome.raised e =>
      (emptyDict, ["GraphQL query failed: " ++ e])

/-- The transport-selection rule as the specification words it (§4.2):
attempt the primary transport; on a transport-level exception retry the
same request once via the fallback transport; only when the fallback
also fails return the empty sentinel.  Stated for comparison with
`Queries.query`, which takes no fallback transport at all. -/
def querySpecWithFallback (primary fallback : HttpOutcome) : Json :=
  match primary with
  | HttpOutcome.response _ (Decoded.ok j) => j
  | HttpOutcome.response _ (Decoded.failed _) => emptyDict
  | HttpOutcome.raised _ =>
      match fallback with
      | HttpOutcome.response _ (Decoded.ok j) => j
      | _ => emptyDict

/-- What one REST attempt does: the request completes with a status code
and (already decoded) body, or some step of the attempt raises. -/
inductive RestResponse where
  | status (code : Nat) (body : Json)
  | exn (msg : String)

/-- Which branch ended the `query_rest` retry loop. -/
inductive ExitKind where
  | success
  | errorStatus
  | exception
  | exhausted
deriving DecidableEq, Repr

/-- Observable behaviour of one `query_rest` call: the returned value,
the backoff sleeps performed (in order, in seconds), the messages
printed, and which branch ended the loop. -/
structure RestResult where
  result : Json
  sleeps : List Nat
  printed : List String
  exit : ExitKind

/-- The status dispatch of one `query_rest` attempt (lines 53-59): the
code first tests `r.status == 202`, then `r.status == 200`, and treats
every other completed status as a terminal error; an exception anywhere
in the attempt is caught by the `except` clause. -/
inductive RestClass where
  | processing (body : Json)
  | okBody (body : Json)
  | badStatus (code : Nat) (body : Json)
  | raisedExn (msg : String)

/-- Classify one attempt outcome the way the attempt's `if` chain does. -/
def classify : RestResponse → RestClass
  | RestResponse.status 202 b => RestClass.processing b
  | RestResponse.status 200 b => RestClass.okBody b
  | RestResponse.status c b => RestClass.badStatus c b
  | RestResponse.exn m => RestClass.raisedExn m

/-- A 202 attempt contributes its 2-second sleep and defers to the rest
of the loop for everything else. -/
def afterSleep (r : RestResult) : RestResult :=
  ⟨r.result, 2 :: r.sleeps, r.printed, r.exit⟩

/-- The retry loop of `Queries.query_rest` (lines 47-63), with the
attempt budget as fuel (the source runs `for _ in range(30)`).  Each
attempt consumes `responses 0`; the recursive call shifts the oracle.
On 202 the code sleeps 2 seconds and continues; on 200 it returns the
body; on any other status it returns `\x7b\x7d`; on an exception it prints
`REST query failed: ...`, breaks, and the function returns `\x7b\x7d`. -/
def queryRestLoop (responses : Nat → RestResponse) : Nat → RestResult
  | 0 => ⟨emptyDict, [], [], ExitKind.exhausted⟩
  | fuel + 1 =>
    match classify (responses 0) with
    | RestClass.processing _ =>
        afterSleep (queryRestLoop (fun i => responses (i + 1)) fuel)
    | RestClass.okBody body => ⟨body, [], [], ExitKind.success⟩
    | RestClass.badStatus _ _ => ⟨emptyDict, [], [], ExitKind.errorStatus⟩
    | RestClass.raisedExn e =>
        ⟨emptyDict, [], ["REST query failed: " ++ e], ExitKind.exception⟩

/-- `path.lstrip("/")` from line 45: Python's `lstrip` removes every
leading occurrence of the given character. -/
def lstripSlashes (path : List Char) : List Char :=
  path.dropWhile (fun c => c == '/')

/-- The fixed prefix of every REST request URL (line 50). -/
def apiBase : List Char := "https://api.github.com/".data

/-- The URL `query_rest` requests for a given input path. -/
def restUrl (path : List Char) : List Char := apiBase ++ lstripSlashes path

/-- `Queries.query_rest` as a whole: normalizes the path into the
request URL and runs the 30-attempt retry loop against the transport
oracle. -/
def Queries.query_rest (path : List Char) (responses : Nat → RestResponse) :
    List Char × RestResult :=
  (restUrl path, queryRestLoop responses 30)

/-- Events a query call performs, in order: semaphore acquisition,
the HTTP call, the backoff sleep, semaphore release (leaving the
`async with self.semaphore` block), and a `print`. -/
inductive Ev where
  | acquire
  | httpCall
  | sleep
  | release
  | printEv
deriving DecidableEq, Repr

/-- Number of occurrences of one event in a trace. -/
def countEv (e : Ev) : List Ev → Nat
  | [] => 0
  | x :: tr => (if x = e then 1 else 0) + countEv e tr

/-- Event trace of `Queries.query` (lines 31-38): the semaphore is
acquired, the POST is performed, and — because both `async with` blocks
unwind before the `except` handler runs — the release precedes the
failure `print`. -/
def queryTrace (outcome : HttpOutcome) : List Ev :=
  match outcome with
  | HttpOutcome.response _ (Decoded.ok _) => [Ev.acquire, Ev.httpCall, Ev.release]
  | HttpOutcome.response _ (Decoded.failed _) =>
      [Ev.acquire, Ev.httpCall, Ev.release, Ev.printEv]
  | HttpOutcome.raised _ => [Ev.acquire, Ev.httpCall, Ev.release, Ev.printEv]

/-- Event trace of the `query_rest` retry loop (lines 47-63).  The
`await asyncio.sleep(2)` on a 202 sits inside the
`async with self.semaphore` block, so the sleep happens between the
acquire and the release of that attempt; `continue` then exits the
block, releasing the permit.  On an exception the `with` blocks unwind
(release) before the handler prints and `break`s. -/
def queryRestTrace (responses : Nat → RestResponse) : Nat → List Ev
  | 0 => []
  | fuel + 1 =>
    match classify (responses 0) with
    | RestClass.processing _ =>
        Ev.acquire :: Ev.httpCall :: Ev.sleep :: Ev.release ::
          queryRestTrace (fun i => responses (i + 1)) fuel
    | RestClass.okBody _ => [Ev.acquire, Ev.httpCall, Ev.release]
    | RestClass.badStatus _ _ => [Ev.acquire, Ev.httpCall, Ev.release]
    | RestClass.raisedExn _ => [Ev.acquire, Ev.httpCall, Ev.release, Ev.printEv]

/-- The GraphQL query text `Stats.get_user_data` builds for a username
(lines 75-88; `\x7b\x7b` in the Python f-string is a literal brace). -/
def Stats.userQueryText (username : String) : String :=
  "\n        \x7b\n          user(login: \"" ++ username ++
  "\") \x7b\n            name\n            repositories(first: 100, ownerAffiliations: OWNER) \x7b\n              totalCount\n              nodes \x7b\n                stargazerCount\n                forkCount\n              \x7d\n            \x7d\n          \x7d\n        \x7d\n        "

/-- `Stats.get_user_data` (lines 73-89): builds the query text for the
username and submits it through `Queries.query`.  The transport oracle
maps the submitted query text to its HTTP outcome. -/
def Stats.get_user_data (username : String) (transport : String → HttpOutcome) :
    Json × List String :=
  Queries.query (transport (Stats.userQueryText username))

/-- The star sum of line 100: `sum(repo["stargazerCount"] for repo in repos)`. -/
def sumStars (repos : List Json) : Int :=
  (repos.map (fun r => asInt (r.get "stargazerCount"))).sum

/-- Total stars reported by `to_str` for a decoded response (line 100). -/
def Stats.totalStars (data : Json) : Int :=
  sumStars (asArr ((((data.get "data").get "user").get "repositories").get "nodes"))

/-- Total repositories reported by `to_str` (line 101): the
server-provided `totalCount` field, not a client-side count. -/
def Stats.totalRepos (data : Json) : Json :=
  (((data.get "data").get "user").get "repositories").get "totalCount"

/-- The rendering step of `Stats.to_str` (lines 93-108) applied to the
decoded query result. -/
def Stats.render (username : String) (data : Json) : String :=
  if pyFalsy data || !(data.hasKey "data") ||
      pyFalsy ((data.get "data").get "user") then
    "Could not retrieve data for user: " ++ username ++
      ". Check your token and username."
  else
    let user := (data.get "data").get "user"
    let nameStr := if pyFalsy (user.get "name") then "N/A"
                   else jrender (user.get "name")
    "--- GitHub Stats for " ++ username ++ " (" ++ nameStr ++ ") ---\n" ++
      "Total Repositories: " ++ jrender (Stats.totalRepos data) ++ "\n" ++
      "Total Stars Received: " ++ toString (Stats.totalStars data) ++ "\n" ++
      "---------------------------------------"

/-- `Stats.to_str` (lines 91-108): fetch the user data and render it. -/
def Stats.to_str (username : String) (transport : String → HttpOutcome) : String :=
  Stats.render username (Stats.get_user_data username transport).1

/-- The state a successfully constructed `Queries` instance holds
(lines 19-26): the resolved username, the access token, and the
semaphore capacity. -/
structure QueriesState where
  username : String
  access_token : String
  semCapacity : Nat

/-- The default of the `max_connections` parameter (line 20). -/
def defaultMaxConnections : Nat := 10

/-- `Queries.__init__` (lines 19-26): `username or os.getenv("GITHUB_ACTOR")`
keeps a truthy `username` and otherwise falls back to the environment
value; if the result is still falsy (absent or empty) the constructor
raises `NameError("GitHub username is not defined!")`.  The constructor
performs no network I/O: it only stores the credentials and creates the
semaphore. -/
def Queries.init (username access_token : String) (envActor : Option String)
    (maxConnections : Nat) : Except String QueriesState :=
  let resolved := if username == "" then envActor else some username
  match resolved with
  | none => Except.error "GitHub username is not defined!"
  | some u =>
      if u == "" then Except.error "GitHub username is not defined!"
      else Except.ok ⟨u, access_token, maxConnections⟩


/-- Where one logical task stands, for the cooperative-concurrency model
of the two query operations.  `k` is the number of loop attempts the
task still has (a `query` task starts at `idle 1`; a `query_rest` task
at `idle 30`).  `active` tasks hold a permit and are inside the network
I/O; `sleeping` tasks hold a permit and are in the 202 backoff sleep
(the sleep is inside the `async with self.semaphore` block). -/
inductive Phase where
  | idle (k : Nat)
  | active (k : Nat)
  | sleeping (k : Nat)
  | done
deriving DecidableEq, Repr

/-- Does this task currently hold a semaphore permit? -/
def Phase.holdsPermit : Phase → Bool
  | Phase.active _ => true
  | Phase.sleeping _ => true
  | _ => false

/-- Is this task currently inside an outbound I/O operation? -/
def Phase.inCall : Phase → Bool
  | Phase.active _ => true
  | _ => false

/-- A scheduler state: the semaphore's free-permit count and the phase
of every task sharing the client instance. -/
structure Sched where
  sem : Nat
  tasks : List Phase
deriving DecidableEq, Repr

/-- Number of tasks currently inside outbound I/O. -/
def activeCalls (s : Sched) : Nat := s.tasks.countP Phase.inCall

/-- Number of tasks currently holding a semaphore permit. -/
def holdingPermits (s : Sched) : Nat := s.tasks.countP Phase.holdsPermit

/-- One cooperative scheduling step of the client.  `acquire` enters
`async with self.semaphore` (only possible when a free permit exists,
`asyncio.Semaphore` semantics) and starts the I/O; `finish` ends an
attempt whose response was terminal (200, other status, or exception),
leaving the `with` block and returning the permit; `poll` receives a 202
and moves into the backoff sleep while still holding the permit; `wake`
ends the sleep, hits `continue`, and thereby leaves the `with` block,
returning the permit and consuming one attempt; `exhaust` ends a task
whose attempt budget ran out. -/
inductive Step : Sched → Sched → Prop where
  | acquire (i k m : Nat) (ts : List Phase)
      (h : ts.get? i = some (Phase.idle (k + 1))) :
      Step ⟨m + 1, ts⟩ ⟨m, ts.set i (Phase.active (k + 1))⟩
  | finish (i k m : Nat) (ts : List Phase)
      (h : ts.get? i = some (Phase.active k)) :
      Step ⟨m, ts⟩ ⟨m + 1, ts.set i Phase.done⟩
  | poll (i k m : Nat) (ts : List Phase)
      (h : ts.get? i = some (Phase.active k)) :
      Step ⟨m, ts⟩ ⟨m, ts.set i (Phase.sleeping k)⟩
  | wake (i k m : Nat) (ts : List Phase)
      (h : ts.get? i = some (Phase.sleeping (k + 1))) :
      Step ⟨m, ts⟩ ⟨m + 1, ts.set i (Phase.idle k)⟩
  | exhaust (i m : Nat) (ts : List Phase)
      (h : ts.get? i = some (Phase.idle 0)) :
      Step ⟨m, ts⟩ ⟨m, ts.set i Phase.done⟩

/-- The initial state of a client constructed with `max_connections = N`
and a set of not-yet-started calls with the given attempt budgets: all
`N` permits are free and every task is idle. -/
def initSched (capacity : Nat) (jobs : List Nat) : Sched :=
  ⟨capacity, jobs.map Phase.idle⟩

/-- States the client can reach from the initial state by cooperative
scheduling steps. -/
inductive Reachable (capacity : Nat) (jobs : List Nat) : Sched → Prop where
  | start : Reachable capacity jobs (initSched capacity jobs)
  | step (s t : Sched) : Reachable capacity jobs s → Step s t →
      Reachable capacity jobs t

/-- A transport that answers 202 for the first `k` attempts and 200
with the given body afterwards. -/
def firstKProcessing (k : Nat) (body : Json) (i : Nat) : RestResponse :=
  if i < k then RestResponse.status 202 Json.null
  else RestResponse.status 200 body

/-- A transport whose first REST attempt raises the given exception;
later attempts would behave as `tail` says (the code never reaches
them: the `except` clause `break`s out of the loop). -/
def exnThen (e : String) (tail : Nat → RestResponse) : Nat → RestResponse
  | 0 => RestResponse.exn e
  | i + 1 => tail i

/-- A structured-query response with two owned repositories, star counts
5 and 10, of which the first is marked as a fork (the `isFork` field;
the query in the source actually selects `forkCount`, and the renderer
reads neither). -/
def exampleData : Json :=
  Json.obj [("data", Json.obj [("user", Json.obj
    [("name", Json.str "Octo"),
     ("repositories", Json.obj
       [("totalCount", Json.num 2),
        ("nodes", Json.arr
          [Json.obj [("stargazerCount", Json.num 5),
                     ("isFork", Json.bool true)],
           Json.obj [("stargazerCount", Json.num 10),
                     ("isFork", Json.bool false)]])])])])]

/-- The same response with the fork marking flipped onto the other
repository. -/
def exampleDataFlipped : Json :=
  Json.obj [("data", Json.obj [("user", Json.obj
    [("name", Json.str "Octo"),
     ("repositories", Json.obj
       [("totalCount", Json.num 2),
        ("nodes", Json.arr
          [Json.obj [("stargazerCount", Json.num 5),
                     ("isFork", Json.bool false)],
           Json.obj [("stargazerCount", Json.num 10),
                     ("isFork", Json.bool true)]])])])])]

/-- Updating one list entry changes a `countP` by the difference of the
indicator values of the old and new entries. -/
theorem countP_set_eq (p : Phase → Bool) (ts : List Phase) (i : Nat)
    (a b : Phase) (h : ts.get? i = some a) :
    (ts.set i b).countP p + (if p a then 1 else 0) =
      ts.countP p + (if p b then 1 else 0) := by
  induction ts generalizing i with
  | nil => simp at h
  | cons x xs ih =>
    cases i with
    | zero =>
      simp only [List.get?] at h
      cases h
      simp only [List.set, List.countP_cons]
      by_cases hpa : p a <;> by_cases hpb : p b <;> simp [hpa, hpb]
    | succ j =>
      simp only [List.get?] at h
      have := ih j h
      simp only [List.set, List.countP_cons]
      by_cases hpx : p x <;> simp [hpx] <;> omega

/-- The semaphore invariant: free permits plus held permits always equal
the capacity. -/
theorem reachable_sem_inv (capacity : Nat) (jobs : List Nat) (s : Sched)
    (h : Reachable capacity jobs s) :
    s.sem + holdingPermits s = capacity := by
  induction h with
  | start =>
    simp only [initSched, holdingPermits]
    have hz : (jobs.map Phase.idle).countP Phase.holdsPermit = 0 := by
      induction jobs with
      | nil => rfl
      | cons j js ihj => simp [List.countP_cons, Phase.holdsPermit, ihj]
    simp [hz]
  | step s t _ hstep ih =>
    cases hstep with
    | acquire i k m ts hts =>
      have hc := countP_set_eq Phase.holdsPermit ts i _ (Phase.active (k + 1)) hts
      simp [Phase.holdsPermit] at hc
      simp [holdingPermits] at ih ⊢
      omega
    | finish i k m ts hts =>
      have hc := countP_set_eq Phase.holdsPermit ts i _ Phase.done hts
      simp [Phase.holdsPermit] at hc
      simp [holdingPermits] at ih ⊢
      omega
    | poll i k m ts hts =>
      have hc := countP_set_eq Phase.holdsPermit ts i _ (Phase.sleeping k) hts
      simp [Phase.holdsPermit] at hc
      simp [holdingPermits] at ih ⊢
      omega
    | wake i k m ts hts =>
      have hc := countP_set_eq Phase.holdsPermit ts i _ (Phase.idle k) hts
      simp [Phase.holdsPermit] at hc
      simp [holdingPermits] at ih ⊢
      omega
    | exhaust i m ts hts =>
      have hc := countP_set_eq Phase.holdsPermit ts i _ Phase.done hts
      simp [Phase.holdsPermit] at hc
      simp [holdingPermits] at ih ⊢
      omega

/-- Every task inside I/O holds a permit, so the I/O count is bounded by
the held-permit count. -/
theorem activeCalls_le_holding (s : Sched) : activeCalls s ≤ holdingPermits s := by
  simp only [activeCalls, holdingPermits]
  induction s.tasks with
  | nil => simp
  | cons x xs ih =>
    simp only [List.countP_cons]
    have : (if Phase.inCall x then 1 else 0) ≤ (if Phase.holdsPermit x then 1 else 0) := by
      cases x <;> simp [Phase.inCall, Phase.holdsPermit]
    omega

/-- C1: for every gate capacity N ≥ 1 and every state reachable by any
interleaving of concurrent `query` / `query_rest` calls sharing one
client instance, the number of simultaneously-active outbound I/O
operations never exceeds N. -/
theorem gate_bounds_active_io (capacity : Nat) (jobs : List Nat)
    (s : Sched) (_hN : 1 ≤ capacity) (h : Reachable capacity jobs s) :
    activeCalls s ≤ capacity := by
  have h1 := reachable_sem_inv capacity jobs s h
  have h2 := activeCalls_le_holding s
  omega

/-- Witness for `gate_bounds_active_io`: a capacity-1 client with one
task that has acquired the permit and entered I/O. -/
theorem gate_bounds_active_io_witness :
    1 ≤ 1 ∧ activeCalls ⟨0, [Phase.active 1]⟩ ≤ 1 :=
  ⟨Nat.le_refl 1,
    gate_bounds_active_io 1 [1] ⟨0, [Phase.active 1]⟩ (Nat.le_refl 1)
      (Reachable.step _ _ Reachable.start
        (Step.acquire 0 0 0 [Phase.idle 1] rfl))⟩

/-- C2 counterexample: a call whose primary transport raises while a
fallback (had one existed) would succeed with body `42`.  The
specification's selection rule yields `42`, but `Queries.query` —
which consults no fallback transport — returns the empty dict. -/
theorem query_no_fallback_retry_counterexample :
    querySpecWithFallback (HttpOutcome.raised "timeout")
        (HttpOutcome.response 200 (Decoded.ok (Json.num 42))) = Json.num 42 ∧
    (Queries.query (HttpOutcome.raised "timeout")).1 = emptyDict ∧
    emptyDict ≠ Json.num 42 :=
  ⟨rfl, rfl, fun h => Json.noConfusion h⟩

/-- C2 (amended): on a transport-level exception neither operation makes
a second attempt through any fallback.  `query` logs
`GraphQL query failed` and returns the empty dict within the same call,
its trace holding exactly one HTTP call; `query_rest` — whatever its
remaining attempt budget and whatever later attempts would have
returned — logs `REST query failed`, `break`s, and returns the empty
dict, its trace likewise holding exactly one HTTP call. -/
theorem query_exception_no_retry (e : String) (fuel : Nat)
    (tail : Nat → RestResponse) :
    Queries.query (HttpOutcome.raised e) =
      (emptyDict, ["GraphQL query failed: " ++ e]) ∧
    queryTrace (HttpOutcome.raised e) =
      [Ev.acquire, Ev.httpCall, Ev.release, Ev.printEv] ∧
    countEv Ev.httpCall (queryTrace (HttpOutcome.raised e)) = 1 ∧
    queryRestLoop (exnThen e tail) (fuel + 1) =
      ⟨emptyDict, [], ["REST query failed: " ++ e], ExitKind.exception⟩ ∧
    queryRestTrace (exnThen e tail) (fuel + 1) =
      [Ev.acquire, Ev.httpCall, Ev.release, Ev.printEv] ∧
    countEv Ev.httpCall (queryRestTrace (exnThen e tail) (fuel + 1)) = 1 :=
  ⟨rfl, rfl, rfl, rfl, rfl, rfl⟩

/-- C8: constructing a client with an empty identity and no fallback
environment value fails with the configuration error (the constructor
performs no network I/O — its model takes no transport oracle at all),
while a client with a non-empty identity or a non-empty fallback value
constructs successfully. -/
theorem init_missing_identity_raises (tok : String) (n : Nat) :
    Queries.init "" tok none n =
      Except.error "GitHub username is not defined!" ∧
    ∀ (u : String) (env : Option String),
      (u ≠ "" ∨ (∃ v, env = some v ∧ v ≠ "")) →
      ∃ q, Queries.init u tok env n = Except.ok q := by
  constructor
  · rfl
  · intro u env h
    by_cases hu : u = ""
    · subst hu
      rcases h with h | ⟨v, rfl, hv⟩
      · exact absurd rfl h
      · exact ⟨⟨v, tok, n⟩, by simp [Queries.init, hv]⟩
    · exact ⟨⟨u, tok, n⟩, by simp [Queries.init, hu]⟩

/-- Witness for `init_missing_identity_raises`: empty identity with no
environment value errors; identity `octocat` constructs. -/
theorem init_missing_identity_raises_witness :
    Queries.init "" "t" none 10 =
      Except.error "GitHub username is not defined!" ∧
    ∃ q, Queries.init "octocat" "t" none 10 = Except.ok q :=
  ⟨(init_missing_identity_raises "t" 10).1,
   (init_missing_identity_raises "t" 10).2 "octocat" none
     (Or.inl (by decide))⟩

/-- C9: in every `query` call and every `query_rest` call, for every
transport behaviour — success, terminal status, or a raised exception —
each semaphore acquisition in the trace is matched by a release: the
gate ends the call with as many free permits as it started with. -/
theorem permits_never_leak (outcome : HttpOutcome)
    (responses : Nat → RestResponse) (fuel : Nat) :
    countEv Ev.acquire (queryTrace outcome) =
      countEv Ev.release (queryTrace outcome) ∧
    countEv Ev.acquire (queryRestTrace responses fuel) =
      countEv Ev.release (queryRestTrace responses fuel) := by
  constructor
  · cases outcome with
    | response st body => cases body <;> rfl
    | raised e => rfl
  · induction fuel generalizing responses with
    | zero => rfl
    | succ n ih =>
      cases hc : classify (responses 0) with
      | processing b =>
        have hr := ih (fun i => responses (i + 1))
        simp [queryRestTrace, hc, countEv]
        omega
      | okBody b => simp [queryRestTrace, hc, countEv]
      | badStatus c b => simp [queryRestTrace, hc, countEv]
      | raisedExn e => simp [queryRestTrace, hc, countEv]

/-- C10: `query` returns the decoded response body as-is for every
status code, including non-2xx ones — it performs no status check — and
produces the empty dict exactly on the raising branches (a request
exception or a body-decode exception). -/
theorem query_ignores_status (status : Nat) (j : Json) (e : String) :
    (Queries.query (HttpOutcome.response status (Decoded.ok j))).1 = j ∧
    Queries.query (HttpOutcome.response status (Decoded.failed e)) =
      (emptyDict, ["GraphQL query failed: " ++ e]) ∧
    Queries.query (HttpOutcome.raised e) =
      (emptyDict, ["GraphQL query failed: " ++ e]) :=
  ⟨rfl, rfl, rfl⟩

/-- A loop seeing only 202 responses consumes its entire attempt budget,
sleeping 2 time-units per attempt, printing nothing, and returns the
empty dict. -/
theorem queryRestLoop_all202 :
    ∀ (fuel : Nat) (responses : Nat → RestResponse),
    (∀ i, ∃ b, responses i = RestResponse.status 202 b) →
    queryRestLoop responses fuel =
      ⟨emptyDict, List.replicate fuel 2, [], ExitKind.exhausted⟩ := by
  intro fuel
  induction fuel with
  | zero => intro responses _; rfl
  | succ n ih =>
    intro responses h
    obtain ⟨b, hb⟩ := h 0
    have ih2 := ih (fun i => responses (i + 1)) (fun i => h (i + 1))
    simp [queryRestLoop, hb, classify, afterSleep, ih2, List.replicate_succ]

/-- C4 counterexample: a fetch answered 202 on every attempt up to the
budget returns the empty dict but prints nothing at all — in
particular, no "incomplete" diagnostic is emitted on any channel. -/
theorem exhausted_budget_no_diagnostic_counterexample :
    (queryRestLoop (fun _ => RestResponse.status 202 Json.null) 30).printed
        = [] ∧
    (queryRestLoop (fun _ => RestResponse.status 202 Json.null) 30).result
        = emptyDict ∧
    (queryRestLoop (fun _ => RestResponse.status 202 Json.null) 30).exit
        = ExitKind.exhausted :=
  ⟨rfl, rfl, rfl⟩

/-- C4 (amended): a fetch answered 202 on every attempt up to the fixed
30-attempt budget returns the empty dict after 30 backoff sleeps and
emits no diagnostic: its printed-message list is empty. -/
theorem exhausted_budget_returns_sentinel (responses : Nat → RestResponse)
    (h : ∀ i, ∃ b, responses i = RestResponse.status 202 b) :
    queryRestLoop responses 30 =
      ⟨emptyDict, List.replicate 30 2, [], ExitKind.exhausted⟩ :=
  queryRestLoop_all202 30 responses h

/-- Witness for `exhausted_budget_returns_sentinel`: the constant-202
transport. -/
theorem exhausted_budget_returns_sentinel_witness :
    queryRestLoop (fun _ => RestResponse.status 202 Json.null) 30 =
      ⟨emptyDict, List.replicate 30 2, [], ExitKind.exhausted⟩ :=
  exhausted_budget_returns_sentinel (fun _ => RestResponse.status 202 Json.null)
    (fun _ => ⟨Json.null, rfl⟩)

/-- Shifting the `k+1`-fold 202 transport by one attempt yields the
`k`-fold one. -/
theorem firstKProcessing_shift (k : Nat) (body : Json) :
    (fun i => firstKProcessing (k + 1) body (i + 1)) =
      firstKProcessing k body := by
  funext i
  simp only [firstKProcessing]
  by_cases h : i < k
  · rw [if_pos (show i + 1 < k + 1 by omega), if_pos h]
  · rw [if_neg (show ¬ i + 1 < k + 1 by omega), if_neg h]

/-- Running the loop against `k` 202s followed by 200 (with `k` inside
the budget) returns the 200 body after exactly `k` sleeps of 2. -/
theorem queryRestLoop_firstK (body : Json) :
    ∀ (k fuel : Nat), k < fuel →
    queryRestLoop (firstKProcessing k body) fuel =
      ⟨body, List.replicate k 2, [], ExitKind.success⟩ := by
  intro k
  induction k with
  | zero =>
    intro fuel hf
    cases fuel with
    | zero => omega
    | succ n =>
      have h0 : firstKProcessing 0 body 0 = RestResponse.status 200 body := by
        simp [firstKProcessing]
      simp [queryRestLoop, h0, classify]
  | succ k ih =>
    intro fuel hf
    cases fuel with
    | zero => omega
    | succ n =>
      have h0 : firstKProcessing (k + 1) body 0 =
          RestResponse.status 202 Json.null := by
        simp [firstKProcessing]
      simp [queryRestLoop, h0, classify, firstKProcessing_shift, afterSleep,
        ih n (by omega), List.replicate_succ]

/-- The total backoff slept after `k` 202 responses. -/
theorem sum_replicate_two (k : Nat) : (List.replicate k 2).sum = 2 * k := by
  induction k with
  | zero => rfl
  | succ n ih =>
    simp only [List.replicate_succ, List.sum_cons, ih]
    omega

/-- Any run of the loop that does not exit through the 200 branch
returns the empty dict. -/
theorem queryRestLoop_nonsuccess :
    ∀ (fuel : Nat) (responses : Nat → RestResponse),
    (queryRestLoop responses fuel).exit ≠ ExitKind.success →
    (queryRestLoop responses fuel).result = emptyDict := by
  intro fuel
  induction fuel with
  | zero => intro responses _; rfl
  | succ n ih =>
    intro responses h
    cases hc : classify (responses 0) with
    | processing b =>
      simp only [queryRestLoop, hc, afterSleep] at h ⊢
      exact ih _ h
    | okBody b => simp [queryRestLoop, hc] at h
    | badStatus c b => simp [queryRestLoop, hc]
    | raisedExn e => simp [queryRestLoop, hc]

/-- C5: for every k strictly below the 30-attempt budget, a fetch whose
server answers 202 exactly k times and then 200 returns the decoded 200
body, sleeping a total of k × 2 time-units; and the 200 branch is the
only success exit — every run not exiting through it returns the empty
dict. -/
theorem rest_202_then_200_succeeds (k : Nat) (body : Json) (h : k < 30) :
    queryRestLoop (firstKProcessing k body) 30 =
      ⟨body, List.replicate k 2, [], ExitKind.success⟩ ∧
    (List.replicate k 2).sum = 2 * k ∧
    ∀ responses : Nat → RestResponse,
      (queryRestLoop responses 30).exit ≠ ExitKind.success →
      (queryRestLoop responses 30).result = emptyDict :=
  ⟨queryRestLoop_firstK body k 30 h, sum_replicate_two k,
   fun responses hr => queryRestLoop_nonsuccess 30 responses hr⟩

/-- Witness for `rest_202_then_200_succeeds`: three 202s then 200 with
body 7; and an exception run returning the empty dict. -/
theorem rest_202_then_200_succeeds_witness :
    queryRestLoop (firstKProcessing 3 (Json.num 7)) 30 =
      ⟨Json.num 7, List.replicate 3 2, [], ExitKind.success⟩ ∧
    (List.replicate 3 2).sum = 2 * 3 ∧
    (queryRestLoop (fun _ => RestResponse.exn "boom") 30).result = emptyDict :=
  ⟨(rest_202_then_200_succeeds 3 (Json.num 7) (by omega)).1,
   (rest_202_then_200_succeeds 3 (Json.num 7) (by omega)).2.1,
   (rest_202_then_200_succeeds 3 (Json.num 7) (by omega)).2.2
     (fun _ => RestResponse.exn "boom") (by decide)⟩

/-- C6 counterexample: a fetch answered 202 then 200.  The trace shows
the sleep at position 2, strictly between that attempt's acquire
(position 0) and its release (position 3): in the prefix before the
sleep one permit has been acquired and none released, so the gate permit
is held — not released — when the backoff sleep begins. -/
theorem sleep_before_release_counterexample :
    queryRestTrace
        (fun i => if i == 0 then RestResponse.status 202 Json.null
                  else RestResponse.status 200 emptyDict) 30 =
      [Ev.acquire, Ev.httpCall, Ev.sleep, Ev.release,
       Ev.acquire, Ev.httpCall, Ev.release] ∧
    (queryRestTrace
        (fun i => if i == 0 then RestResponse.status 202 Json.null
                  else RestResponse.status 200 emptyDict) 30).get? 2 =
      some Ev.sleep ∧
    countEv Ev.acquire
      ((queryRestTrace
          (fun i => if i == 0 then RestResponse.status 202 Json.null
                    else RestResponse.status 200 emptyDict) 30).take 2) = 1 ∧
    countEv Ev.release
      ((queryRestTrace
          (fun i => if i == 0 then RestResponse.status 202 Json.null
                    else RestResponse.status 200 emptyDict) 30).take 2) = 0 :=
  ⟨rfl, rfl, rfl, rfl⟩

/-- C6 (amended): the permit is held during every backoff sleep: at
every sleep event in a `query_rest` trace, the acquires in the preceding
prefix exceed the releases by exactly one — the permit of the 202
attempt is released only after its sleep, when `continue` exits the
semaphore block. -/
theorem sleep_while_holding_permit :
    ∀ (fuel : Nat) (responses : Nat → RestResponse) (i : Nat),
    (queryRestTrace responses fuel).get? i = some Ev.sleep →
    countEv Ev.acquire ((queryRestTrace responses fuel).take i) =
      countEv Ev.release ((queryRestTrace responses fuel).take i) + 1 := by
  intro fuel
  induction fuel with
  | zero => intro responses i h; simp [queryRestTrace] at h
  | succ n ih =>
    intro responses i h
    cases hc : classify (responses 0) with
    | processing b =>
      simp only [queryRestTrace, hc] at h ⊢
      rcases i with _ | (_ | (_ | (_ | j)))
      · simp at h
      · simp at h
      · rfl
      · simp at h
      · simp only [List.get?] at h
        have hr := ih (fun i => responses (i + 1)) j h
        simp [List.take_succ_cons, countEv]
        omega
    | okBody b =>
      simp only [queryRestTrace, hc] at h
      rcases i with _ | (_ | (_ | j)) <;> simp at h
    | badStatus c b =>
      simp only [queryRestTrace, hc] at h
      rcases i with _ | (_ | (_ | j)) <;> simp at h
    | raisedExn e =>
      simp only [queryRestTrace, hc] at h
      rcases i with _ | (_ | (_ | (_ | j))) <;> simp at h

/-- Witness for `sleep_while_holding_permit`: a single 202 attempt,
whose sleep sits at position 2 of the trace. -/
theorem sleep_while_holding_permit_witness :
    countEv Ev.acquire
      ((queryRestTrace (fun _ => RestResponse.status 202 Json.null) 1).take 2) =
    countEv Ev.release
      ((queryRestTrace (fun _ => RestResponse.status 202 Json.null) 1).take 2)
      + 1 :=
  sleep_while_holding_permit 1 (fun _ => RestResponse.status 202 Json.null) 2 rfl

/-- Stripping a leading separator then stripping the rest. -/
theorem lstripSlashes_cons_slash (cs : List Char) :
    lstripSlashes ('/' :: cs) = lstripSlashes cs := by
  simp [lstripSlashes, List.dropWhile_cons]

/-- A path whose head is not a separator is left unchanged. -/
theorem lstripSlashes_cons_other (c : Char) (cs : List Char) (hc : ¬ c = '/') :
    lstripSlashes (c :: cs) = c :: cs := by
  simp [lstripSlashes, List.dropWhile_cons, hc]

/-- The normalized path never starts with a separator. -/
theorem lstripSlashes_no_leading :
    ∀ (path tl : List Char), lstripSlashes path ≠ '/' :: tl := by
  intro path
  induction path with
  | nil => intro tl h; exact List.noConfusion h
  | cons c cs ih =>
    intro tl h
    by_cases hc : c = '/'
    · subst hc
      rw [lstripSlashes_cons_slash] at h
      exact ih tl h
    · rw [lstripSlashes_cons_other c cs hc] at h
      exact hc (List.head_eq_of_cons_eq h)

/-- The input path is exactly its stripped leading separators followed
by the normalized path. -/
theorem lstripSlashes_decomposition :
    ∀ path : List Char,
    ∃ k, path = List.replicate k '/' ++ lstripSlashes path := by
  intro path
  induction path with
  | nil => exact ⟨0, rfl⟩
  | cons c cs ih =>
    by_cases hc : c = '/'
    · subst hc
      obtain ⟨k, hk⟩ := ih
      refine ⟨k + 1, ?_⟩
      rw [lstripSlashes_cons_slash, List.replicate_succ, List.cons_append]
      exact congrArg (List.cons '/') hk
    · exact ⟨0, by rw [lstripSlashes_cons_other c cs hc]; rfl⟩

/-- C7 counterexample: on input `//octocat` — where stripping exactly
one leading separator would leave `/octocat` — the code produces
`octocat`: the second leading separator is not preserved. -/
theorem lstrip_single_separator_counterexample :
    lstripSlashes "//octocat".data = "octocat".data ∧
    restUrl "//octocat".data = apiBase ++ "octocat".data ∧
    "octocat".data ≠ "/octocat".data :=
  ⟨by decide, by decide, by decide⟩

/-- C7 (amended): path normalization strips every leading separator,
not one: the request URL appends the input with all leading slashes
removed; the input is those slashes followed by the normalized
remainder, which never begins with a separator. -/
theorem lstrip_all_separators (path : List Char) :
    restUrl path = apiBase ++ lstripSlashes path ∧
    (∃ k, path = List.replicate k '/' ++ lstripSlashes path) ∧
    ∀ tl, lstripSlashes path ≠ '/' :: tl :=
  ⟨rfl, lstripSlashes_decomposition path, lstripSlashes_no_leading path⟩

/-- Witness for `lstrip_all_separators` at the concrete path
`//octocat`. -/
theorem lstrip_all_separators_witness :
    restUrl "//octocat".data = apiBase ++ lstripSlashes "//octocat".data ∧
    (∃ k, "//octocat".data =
      List.replicate k '/' ++ lstripSlashes "//octocat".data) ∧
    lstripSlashes "//octocat".data ≠ '/' :: "octocat".data :=
  ⟨(lstrip_all_separators "//octocat".data).1,
   (lstrip_all_separators "//octocat".data).2.1,
   (lstrip_all_separators "//octocat".data).2.2 "octocat".data⟩

/-- C3 counterexample: on the two-repository response with stars 5 and
10 and one fork, the aggregator reports 2 repositories (the
server-provided `totalCount`) and 15 stars — not the 1 repository and 5
stars the fork-exclusion-ON claim predicts: no fork-exclusion filter is
applied before summing or counting. -/
theorem fork_exclusion_counterexample :
    Stats.totalStars exampleData = 15 ∧
    Stats.totalRepos exampleData = Json.num 2 ∧
    Stats.to_str "octocat"
        (fun _ => HttpOutcome.response 200 (Decoded.ok exampleData)) =
      "--- GitHub Stats for octocat (Octo) ---\nTotal Repositories: 2\nTotal Stars Received: 15\n---------------------------------------" ∧
    (15 : Int) ≠ 5 ∧ (2 : Int) ≠ 1 :=
  ⟨rfl, rfl, rfl, by decide, by decide⟩

/-- C3 (amended): the aggregator has no fork-exclusion configuration:
for the two-repository response with stars 5 and 10 it reports Total
Repositories: 2 and Total Stars: 15 whichever repository carries the
fork marking — star sum and repository count are computed over the
unfiltered list (and the count is the server-reported total). -/
theorem fork_flag_ignored :
    Stats.to_str "octocat"
        (fun _ => HttpOutcome.response 200 (Decoded.ok exampleData)) =
      Stats.to_str "octocat"
        (fun _ => HttpOutcome.response 200 (Decoded.ok exampleDataFlipped)) ∧
    Stats.to_str "octocat"
        (fun _ => HttpOutcome.response 200 (Decoded.ok exampleData)) =
      "--- GitHub Stats for octocat (Octo) ---\nTotal Repositories: 2\nTotal Stars Received: 15\n---------------------------------------" ∧
    Stats.totalStars exampleData = 15 ∧
    Stats.totalStars exampleDataFlipped = 15 ∧
    Stats.totalRepos exampleData = Json.num 2 :=
  ⟨rfl, rfl, rfl, rfl, rfl⟩
